import Mathlib

/-!
Shallow embedding of the AI Conversation Gateway of the HealingHerb
backend (`healingherb/utils/ai_utils.py` and `healingherb/routes/ai.py`),
with theorems checking the natural-language specification against it.

Modelling conventions:
* Timestamps (`datetime.utcnow().timestamp()`) are modelled as integers
  (seconds).  With integer timestamps the `int(...)` truncations the
  source applies to already-integral millisecond values are identities;
  the one genuine truncating division (`int(resetAfter / 60000)`) is
  modelled with `Int.tdiv`, which truncates toward zero exactly like
  Python `int()` on a quotient.
* Python strings are Lean `String`s; the string operations the source
  uses (`lower`, `strip`, slicing, `split`, `in`) are given explicit
  structurally recursive implementations over `String.data` so that they
  evaluate inside the kernel.
* A Python `dict` is an association list with insertion-order semantics.
* The fallible outbound HTTP call is a parameter of the embedding: its
  outcome (`timeout` / status / body) is an input, and the `try/except`
  of the source becomes an `Except` value.
-/

/-- Python `int(a / b)` for integers `a`, `b`: true division followed by
truncation toward zero. -/
def pyIntDiv (a b : Int) : Int := Int.tdiv a b

/-- Python `s.lower()`: lowercase every character. -/
def pyLower (s : String) : String := ⟨s.data.map Char.toLower⟩

/-- Python `s.strip()`: drop leading and trailing whitespace. -/
def pyStrip (s : String) : String :=
  ⟨(((s.data.dropWhile Char.isWhitespace).reverse.dropWhile Char.isWhitespace).reverse)⟩

/-- Python `s[:n]`: keep the first `n` characters. -/
def pyTake (s : String) (n : Nat) : String := ⟨s.data.take n⟩

/-- One step of splitting a character list on whitespace (used right to
left by `pyCountWords`): whitespace opens a fresh chunk, any other
character is prepended to the current chunk. -/
def splitWsStep (c : Char) (acc : List (List Char)) : List (List Char) :=
  match acc with
  | [] => if c.isWhitespace then [[]] else [[c]]
  | w :: ws => if c.isWhitespace then [] :: w :: ws else (c :: w) :: ws

/-- Python `len(s.split())`: the number of maximal nonempty
whitespace-free chunks of `s`. -/
def pyCountWords (s : String) : Nat :=
  ((s.data.foldr splitWsStep [[]]).filter (fun w => w ≠ [])).length

/-- Decides whether `sub` occurs as a contiguous sublist of `l`. -/
def containsCL (sub : List Char) : List Char → Bool
  | [] => List.isPrefixOf sub []
  | c :: rest => List.isPrefixOf sub (c :: rest) || containsCL sub rest

/-- Python `sub in s` on strings: substring containment. -/
def strContains (s sub : String) : Bool := containsCL sub.data s.data

/-- One entry of `AIRateLimiter.requests`: the per-user fixed window
`{'count', 'window_start', 'reset_time'}` (a `RateWindow` in the spec). -/
structure RateWindowData where
  count : Nat
  window_start : Int
  reset_time : Int
deriving Repr, DecidableEq

/-- The dict returned by `AIRateLimiter.check`:
`{'allowed', 'remaining', 'resetAfter'}` (milliseconds). -/
structure CheckResult where
  allowed : Bool
  remaining : Int
  resetAfter : Int
deriving Repr, DecidableEq

/-- The Python dict `self.requests`, modelled as an association list with
insertion-order semantics (update in place, new keys appended). -/
abbrev RequestsMap := List (String × RateWindowData)

/-- Dict lookup `self.requests[key]` / `key in self.requests`. -/
def mapLookup (m : RequestsMap) (k : String) : Option RateWindowData :=
  match m with
  | [] => none
  | (k', v) :: rest => if k' = k then some v else mapLookup rest k

/-- Dict assignment `self.requests[key] = v`: replaces the binding in place
when the key is present, otherwise appends it. -/
def mapSet (m : RequestsMap) (k : String) (v : RateWindowData) : RequestsMap :=
  match m with
  | [] => [(k, v)]
  | (k', v') :: rest => if k' = k then (k', v) :: rest else (k', v') :: mapSet rest k v

/-- State of `AIRateLimiter`: `self.requests`, `self.limit`, `self.window_minutes`. -/
structure AIRateLimiter where
  requests : RequestsMap
  limit : Nat
  window_minutes : Nat
deriving Repr, DecidableEq

/-- Constructor `AIRateLimiter.__init__`: empty dict, limit 60, window 15 minutes. -/
def AIRateLimiter.init : AIRateLimiter :=
  { requests := [], limit := 60, window_minutes := 15 }

/-- Method `AIRateLimiter.check(user_id)` at time `now` (seconds), returning the
result dict and the limiter state after the call.  `resetAfter` follows
the source: a window-length constant in the two fresh-window branches,
and `(reset_time - now) * 1000` (an exact integer here, so the source's
`int(...)` is the identity) in the other two. -/
def AIRateLimiter.check (L : AIRateLimiter) (user_id : String) (now : Int) :
    CheckResult × AIRateLimiter :=
  let key := "ai:" ++ user_id
  match mapLookup L.requests key with
  | none =>
      let w : RateWindowData :=
        { count := 1, window_start := now,
          reset_time := now + (L.window_minutes : Int) * 60 }
      (⟨true, (L.limit : Int) - 1, (L.window_minutes : Int) * 60 * 1000⟩,
       { L with requests := mapSet L.requests key w })
  | some user_data =>
      let window_end := user_data.window_start + (L.window_minutes : Int) * 60
      if now > window_end then
        let w : RateWindowData :=
          { count := 1, window_start := now,
            reset_time := now + (L.window_minutes : Int) * 60 }
        (⟨true, (L.limit : Int) - 1, (L.window_minutes : Int) * 60 * 1000⟩,
         { L with requests := mapSet L.requests key w })
      else if user_data.count ≥ L.limit then
        (⟨false, 0, (user_data.reset_time - now) * 1000⟩, L)
      else
        let w : RateWindowData := { user_data with count := user_data.count + 1 }
        (⟨true, (L.limit : Int) - (w.count : Int),
          (user_data.reset_time - now) * 1000⟩,
         { L with requests := mapSet L.requests key w })

/-- Sequential `check` calls of one user at the given times, collecting the
returned dicts. -/
def runChecks (L : AIRateLimiter) (user : String) : List Int → List CheckResult × AIRateLimiter
  | [] => ([], L)
  | t :: ts =>
      let step := L.check user t
      let rest := runChecks step.2 user ts
      (step.1 :: rest.1, rest.2)

/-- Sequential `check` calls of arbitrary users at arbitrary times. -/
def runCalls (L : AIRateLimiter) : List (String × Int) → AIRateLimiter
  | [] => L
  | (u, t) :: rest => runCalls (L.check u t).2 rest

/-- Function `sanitize_message`: empty stays empty, otherwise strip surrounding
whitespace and truncate to 5000 characters. -/
def sanitize_message (message : String) : String :=
  if message = "" then ""
  else pyTake (pyStrip message) 5000

/-- The fixed Arabic emergency keyword list of `check_emergency_keywords`. -/
def emergency_keywords : List String :=
  ["طارئ", "إسعاف", "مستعجل", "خطير", "مخيف", "نزيف",
   "ألم شديد", "صعوبة تنفس", "فقدان وعي", "حادث", "سكتة",
   "نوبة قلبية", "تسمم", "حرق", "غرق", "اختناق"]

/-- Function `check_emergency_keywords`: lowercase the message and test each keyword
for substring occurrence (`keyword in message_lower`). -/
def check_emergency_keywords (message : String) : Bool :=
  emergency_keywords.any (fun keyword => strContains (pyLower message) keyword)

/-- User profile row (`users` table) as read by `create_system_prompt`;
only the fields the function touches. `none` models SQL NULL. -/
structure Profile where
  diseases : Option String
  allergies : Option String
  medications : Option String
  age : Option Nat
  gender : Option String
deriving Repr, DecidableEq

/-- Python truthiness of an optional string (`None` and `""` are falsy). -/
def optStrTruthy : Option String → Bool
  | none => false
  | some s => s ≠ ""

/-- Python truthiness of an optional integer (`None` and `0` are falsy). -/
def optNatTruthy : Option Nat → Bool
  | none => false
  | some n => n ≠ 0

/-- The fixed Arabic base text of `create_system_prompt`. -/
def system_prompt_base : String :=
  "أنت مساعد طبي عربي متخصص تسمى \"عشبة شفاء\". مهمتك تقديم معلومات طبية عامة ونصائح صحية.\n\nالمعلومات التي يجب مراعاتها:\n- أنا مريض سكري وأتابع حالتي\n- لدي حساسية من بعض الأدوية\n- أتناول أدوية منتظمة\n\nقواعد مهمة:\n1. لا تقدم تشخيصات طبية نهائية\n2. لا تصف أدوية محددة بجرعات\n3. شجع دائمًا على استشارة الطبيب\n4. في الحالات الطارئة، نبه المريض للاتصال بالطوارئ\n5. استخدم اللغة العربية الفصحى مع بعض التعبيرات الدارجة\n6. كن داعمًا ومتفهمًا\n7. قدم معلومات دقيقة وموثوقة\n8. إذا لم تكن متأكدًا، قل \"لا أعرف\" بدلاً من التخمين\n\nملاحظة: المعلومات المقدمة هي للاسترشاد فقط وليست بديلاً عن الاستشارة الطبية."

/-- Function `create_system_prompt(profile)`: base text plus the truthy profile
fields appended in source order. -/
def create_system_prompt (profile : Profile) : String :=
  let p := system_prompt_base
  let p := if optStrTruthy profile.diseases
           then p ++ "\n\nالأمراض المزمنة للمستخدم: " ++ profile.diseases.getD ""
           else p
  let p := if optStrTruthy profile.allergies
           then p ++ "\nالحساسية: " ++ profile.allergies.getD ""
           else p
  let p := if optStrTruthy profile.medications
           then p ++ "\nالأدوية التي يتناولها: " ++ profile.medications.getD ""
           else p
  let p := if optNatTruthy profile.age
           then p ++ "\nالعمر: " ++ toString (profile.age.getD 0)
           else p
  let p := if optStrTruthy profile.gender
           then p ++ "\nالنوع: " ++
                (if profile.gender.getD "" = "male" then "ذكر" else "أنثى")
           else p
  p

/-- Text of the `get_fallback_response` emergency branch. -/
def emergency_fallback_text : String :=
  "🚨 **ملاحظة مهمة**: يبدو أن رسالتك تحتوي على كلمات طارئة.\n\n💡 **تذكير عاجل**: \n- للحالات الطارئة، يرجى الاتصال بالطوارئ على الرقم 123\n- توجه لأقرب مستشفى أو مركز طوارئ\n- لا تنتظر الرد في الحالات الحرجة\n\n⚠️ **نظام المساعدة الطبية غير متوفر حاليًا**. \nيرجى استخدام قنوات الطوارئ الرسمية للحصول على المساعدة الفورية."

/-- Text of the `get_fallback_response` non-emergency branch. -/
def generic_fallback_text : String :=
  "مرحبًا! 👋\n\nعذرًا، نظام المساعدة الطبية غير متوفر حاليًا. \n\n💡 **نصائح عامة**:\n1. للحالات الطارئة: اتصل بالطوارئ على 123\n2. للمواعيد: راجع طبيبك الخاص\n3. للتساؤلات العامة: يمكنك البحث في قسم الأسئلة الشائعة\n\n🔧 **حاول مرة أخرى لاحقًا**، أو:\n- استخدم ميزة البحث في التطبيق\n- راجع مكتبة المعلومات الصحية\n- تحقق من قسم الوصفات والنصائح\n\nنعتذر للإزعاج ونعمل على حل المشكلة."

/-- Function `get_fallback_response(message, is_emergency)`: canned text chosen by
the emergency flag (the `message` argument is unused in the source). -/
def get_fallback_response (_message : String) (is_emergency : Bool) : String :=
  if is_emergency then emergency_fallback_text else generic_fallback_text

/-- One `{role, content}` entry of the message list built by the route. -/
structure Msg where
  role : String
  content : String
deriving Repr, DecidableEq

/-- The JSON body of a Gemini `generateContent` response, reduced to what
matters here: the candidate texts
(`candidates[i].content.parts[0].text`) and the provider usage report
(`usageMetadata.totalTokenCount`), which the source never reads. -/
structure GeminiBody where
  candidates : List String
  usageMetadata : Option Nat
deriving Repr, DecidableEq

/-- Outcome of the single outbound HTTPS POST of `call_gemini_api`:
a timeout, or an HTTP response with a status code and a parsed JSON body
(`none` when `response.json()` fails on a malformed body). -/
inductive ApiNetResult where
  | timeout
  | response (status : Nat) (body : Option GeminiBody)
deriving Repr, DecidableEq

/-- The success dict of `call_gemini_api`: the candidate text and the
`usage` sub-dict. -/
structure GeminiSuccess where
  response : String
  total_tokens : Nat
  input_tokens : Nat
  output_tokens : Nat
deriving Repr, DecidableEq

/-- Function `call_gemini_api(messages, ...)`: parameterized by whether
`GEMINI_API_KEY` is configured and by the network outcome. Every failure
(missing key, timeout, non-200 status, malformed body, empty candidate
list) raises, modelled as `Except.error`; on success the token counts are
computed as whitespace word counts of the prompt messages and the
candidate text (`len(msg['content'].split())`). -/
def call_gemini_api (apiKeySet : Bool) (net : ApiNetResult) (messages : List Msg) :
    Except String GeminiSuccess :=
  if ¬ apiKeySet then Except.error "GEMINI_API_KEY غير مضبوط"
  else
    match net with
    | ApiNetResult.timeout => Except.error "انتهت مهلة الاتصال بالـ API"
    | ApiNetResult.response status body =>
        if status ≠ 200 then Except.error ("API Error: " ++ toString status)
        else
          match body with
          | none => Except.error "invalid json body"
          | some b =>
              match b.candidates with
              | [] => Except.error "لا توجد استجابة من API"
              | c :: _ =>
                  let input_tokens := (messages.map (fun m => pyCountWords m.content)).sum
                  let output_tokens := pyCountWords c
                  Except.ok
                    { response := c,
                      total_tokens := input_tokens + output_tokens,
                      input_tokens := input_tokens,
                      output_tokens := output_tokens }

/-- A row of the `ai_chat_messages` table (a `ChatTurn` in the spec): one
row stores both the user prompt (`message`) and the assistant reply
(`response`). -/
structure ChatRow where
  id : String
  user_id : String
  message : String
  response : String
  model : String
  tokens_used : Nat
  is_user : Bool
  created_at : Int
deriving Repr, DecidableEq

/-- Stable insertion of a row into a list kept sorted by `created_at`
descending (newest first). -/
def insertDesc (r : ChatRow) : List ChatRow → List ChatRow
  | [] => [r]
  | x :: xs => if r.created_at ≤ x.created_at then x :: insertDesc r xs
               else r :: x :: xs

/-- Sort rows by `created_at` descending (the `ORDER BY created_at DESC`). -/
def sortDesc (rows : List ChatRow) : List ChatRow :=
  rows.foldr insertDesc []

/-- The history query of the chat route:
`SELECT ... WHERE user_id = ? ORDER BY created_at DESC LIMIT 6`. -/
def recentRows (db : List ChatRow) (uid : String) : List ChatRow :=
  (sortDesc (db.filter (fun r => r.user_id = uid))).take 6

/-- The context loop of the chat route: reverse the rows to chronological
order and expand each row into a user message and an assistant message. -/
def contextOf (rows : List ChatRow) : List Msg :=
  rows.reverse.foldl
    (fun acc msg => acc ++ [⟨"user", msg.message⟩, ⟨"assistant", msg.response⟩]) []

/-- The full message list handed to `call_gemini_api` by the chat route:
system prompt, then context, then the new sanitized user message. -/
def buildMessages (profile : Profile) (db : List ChatRow) (uid sanitized : String) :
    List Msg :=
  ⟨"system", create_system_prompt profile⟩ ::
    (contextOf (recentRows db uid) ++ [⟨"user", sanitized⟩])

/-- The emergency banner the chat route wraps around a successful API
answer when the message is an emergency and the answer lacks the markers. -/
def emergencyBanner (ai_response : String) : String :=
  "🚨 **ملاحظة مهمة**: يبدو أن رسالتك تحتوي على كلمات طارئة.\n\n" ++
    ai_response ++
    "\n\n💡 **تذكير**: للحالات الطارئة، يرجى الاتصال بالطوارئ على 123 أو التوجه لأقرب مستشفى."

/-- The `data` object of a successful chat response. -/
structure ChatData where
  response : String
  message_id : String
  tokens_used : Nat
  model : String
  timestamp : Int
  is_emergency : Bool
deriving Repr, DecidableEq

/-- Observable outcome of one `POST /chat` request: HTTP status, body
fields, and the chat-message table and limiter state after the request. -/
structure ChatOutcome where
  status : Nat
  success : Bool
  error : Option String
  data : Option ChatData
  rl_remaining : Option Int
  rl_reset_after : Option Int
  db : List ChatRow
  limiter : AIRateLimiter
deriving Repr, DecidableEq

/-- The authenticated `POST /chat` handler (`routes/ai.py:chat`), after
schema validation. `profile` is the `users` row fetch result, `db` the
`ai_chat_messages` table, `new_id` the generated UUID, `now` the request
time. The outbound call is parameterized by `apiKeySet` and `net`. -/
def chat (uid message model : String) (profile : Option Profile)
    (db : List ChatRow) (L : AIRateLimiter) (now : Int)
    (apiKeySet : Bool) (net : ApiNetResult) (new_id : String) : ChatOutcome :=
  let checked := L.check uid now
  let rate_limit := checked.1
  let L' := checked.2
  if rate_limit.allowed = false then
    { status := 429, success := false,
      error := some ("لقد تجاوزت الحد المسموح به من الطلبات. يرجى المحاولة بعد " ++
        toString (pyIntDiv rate_limit.resetAfter 60000) ++ " دقائق."),
      data := none, rl_remaining := none, rl_reset_after := none,
      db := db, limiter := L' }
  else
    let sanitized := sanitize_message message
    if sanitized = "" then
      { status := 400, success := false,
        error := some "الرسالة لا يمكن أن تكون فارغة",
        data := none, rl_remaining := none, rl_reset_after := none,
        db := db, limiter := L' }
    else
      let is_emergency := check_emergency_keywords sanitized
      match profile with
      | none =>
          { status := 404, success := false,
            error := some "المستخدم غير موجود",
            data := none, rl_remaining := none, rl_reset_after := none,
            db := db, limiter := L' }
      | some p =>
          let messages := buildMessages p db uid sanitized
          let answered :=
            match call_gemini_api apiKeySet net messages with
            | Except.ok result =>
                let ai_response :=
                  if is_emergency = true ∧ strContains result.response "🚨" = false ∧
                      strContains result.response "طارئ" = false
                  then emergencyBanner result.response
                  else result.response
                (ai_response, result.total_tokens)
            | Except.error _ =>
                let fb := get_fallback_response sanitized is_emergency
                (fb, pyCountWords sanitized + pyCountWords fb)
          let row : ChatRow :=
            { id := new_id, user_id := uid, message := sanitized,
              response := answered.1, model := model,
              tokens_used := answered.2, is_user := true, created_at := now }
          { status := 200, success := true, error := none,
            data := some
              { response := answered.1, message_id := new_id,
                tokens_used := answered.2, model := model,
                timestamp := now, is_emergency := is_emergency },
            rl_remaining := some rate_limit.remaining,
            rl_reset_after := some (pyIntDiv rate_limit.resetAfter 1000),
            db := db ++ [row], limiter := L' }

/-- Observable outcome of `DELETE /history` (`routes/ai.py:clear_history`). -/
structure ClearOutcome where
  status : Nat
  success : Bool
  deleted_count : Option Nat
  db : List ChatRow
deriving Repr, DecidableEq

/-- The row predicate of the DELETE statement assembled by
`clear_history`: always `user_id = ?`, and additionally
`created_at < now - older_than_days days` when `older_than_days` is
truthy (Python `if older_than_days:` — `None` and `0` are falsy). -/
def clearDeletes (uid : String) (older_than_days : Option Nat) (now : Int)
    (r : ChatRow) : Bool :=
  decide (r.user_id = uid) &&
    (match older_than_days with
     | some d => if d ≠ 0 then decide (r.created_at < now - (d : Int) * 86400) else true
     | none => true)

/-- The `DELETE /history` handler after schema validation: requires
`confirm`, deletes the matching rows and reports the DELETE rowcount. -/
def clear_history (uid : String) (confirm : Bool) (older_than_days : Option Nat)
    (now : Int) (db : List ChatRow) : ClearOutcome :=
  if confirm = false then
    { status := 400, success := false, deleted_count := none, db := db }
  else
    { status := 200, success := true,
      deleted_count := some (db.filter (clearDeletes uid older_than_days now)).length,
      db := db.filter (fun r => (clearDeletes uid older_than_days now r) = false) }

lemma mapLookup_mapSet_self (m : RequestsMap) (k : String) (v : RateWindowData) :
    mapLookup (mapSet m k v) k = some v := by
  induction m with
  | nil => simp [mapSet, mapLookup]
  | cons p rest ih =>
      obtain ⟨k', v'⟩ := p
      by_cases h : k' = k
      · simp [mapSet, mapLookup, h]
      · simp [mapSet, mapLookup, h, ih]

lemma mapLookup_mem {m : RequestsMap} {k : String} {v : RateWindowData}
    (h : mapLookup m k = some v) : (k, v) ∈ m := by
  induction m with
  | nil => simp [mapLookup] at h
  | cons p rest ih =>
      obtain ⟨k', v'⟩ := p
      by_cases hk : k' = k
      · simp [mapLookup, hk] at h
        simp [hk, h]
      · simp [mapLookup, hk] at h
        exact List.mem_cons_of_mem _ (ih h)

lemma mem_mapSet {m : RequestsMap} {k : String} {v : RateWindowData}
    {p : String × RateWindowData} (h : p ∈ mapSet m k v) :
    p ∈ m ∨ p = (k, v) := by
  induction m with
  | nil => simp [mapSet] at h; simp [h]
  | cons q rest ih =>
      obtain ⟨k', v'⟩ := q
      by_cases hk : k' = k
      · simp [mapSet, hk] at h
        rcases h with h | h
        · right; simp [h, hk]
        · left; exact List.mem_cons_of_mem _ h
      · simp [mapSet, hk] at h
        rcases h with h | h
        · left; simp [h]
        · rcases ih h with h' | h'
          · left; exact List.mem_cons_of_mem _ h'
          · right; exact h'

/-- C3: a `check` call after the stored window's reset time has elapsed is
admitted and restarts the window with `count = 1`, `remaining = limit - 1`
and a fresh reset time. -/
theorem c3_window_reset (L : AIRateLimiter) (u : String) (now : Int)
    (w : RateWindowData)
    (hlook : mapLookup L.requests ("ai:" ++ u) = some w)
    (hcoherent : w.reset_time = w.window_start + (L.window_minutes : Int) * 60)
    (helapsed : now > w.reset_time) :
    (L.check u now).1.allowed = true ∧
    (L.check u now).1.remaining = (L.limit : Int) - 1 ∧
    mapLookup (L.check u now).2.requests ("ai:" ++ u) =
      some ⟨1, now, now + (L.window_minutes : Int) * 60⟩ := by
  have hgt : now > w.window_start + (L.window_minutes : Int) * 60 := by
    rw [← hcoherent]; exact helapsed
  simp only [AIRateLimiter.check, hlook]
  simp [hgt, mapLookup_mapSet_self]

/-- C3 witness: a concrete limiter whose single window has elapsed. -/
theorem c3_witness :
    ((AIRateLimiter.init.check "u" 0).2.check "u" 1000).1.allowed = true ∧
    ((AIRateLimiter.init.check "u" 0).2.check "u" 1000).1.remaining = 59 ∧
    mapLookup ((AIRateLimiter.init.check "u" 0).2.check "u" 1000).2.requests "ai:u" =
      some ⟨1, 1000, 1900⟩ := by
  have h := c3_window_reset (AIRateLimiter.init.check "u" 0).2 "u" 1000
    ⟨1, 0, 900⟩ (by decide) (by decide) (by decide)
  simpa using h


/-- The limiter after storing window `w` for user `u` (the in-place dict
updates of `check`). -/
def setWindow (L : AIRateLimiter) (u : String) (w : RateWindowData) : AIRateLimiter :=
  { L with requests := mapSet L.requests ("ai:" ++ u) w }

lemma check_step_fresh {L : AIRateLimiter} {u : String} (t : Int)
    (hlook : mapLookup L.requests ("ai:" ++ u) = none) :
    L.check u t =
      (⟨true, (L.limit : Int) - 1, (L.window_minutes : Int) * 60 * 1000⟩,
       setWindow L u (RateWindowData.mk 1 t (t + (L.window_minutes : Int) * 60))) := by
  simp [AIRateLimiter.check, hlook, setWindow]

lemma check_step_reject {L : AIRateLimiter} {u : String} {t t₀ rt : Int} {c : Nat}
    (hlook : mapLookup L.requests ("ai:" ++ u) = some ⟨c, t₀, rt⟩)
    (ht : t ≤ t₀ + (L.window_minutes : Int) * 60)
    (hc : c ≥ L.limit) :
    L.check u t = (⟨false, 0, (rt - t) * 1000⟩, L) := by
  simp [AIRateLimiter.check, hlook, not_lt.mpr ht, hc]

lemma check_step_increment {L : AIRateLimiter} {u : String} {t t₀ rt : Int} {c : Nat}
    (hlook : mapLookup L.requests ("ai:" ++ u) = some ⟨c, t₀, rt⟩)
    (ht : t ≤ t₀ + (L.window_minutes : Int) * 60)
    (hc : c < L.limit) :
    L.check u t =
      (⟨true, (L.limit : Int) - ((c : Int) + 1), (rt - t) * 1000⟩,
       setWindow L u (RateWindowData.mk (c + 1) t₀ rt)) := by
  simp [AIRateLimiter.check, hlook, not_lt.mpr ht, not_le.mpr hc, setWindow]

lemma mapLookup_setWindow (L : AIRateLimiter) (u : String) (w : RateWindowData) :
    mapLookup (setWindow L u w).requests ("ai:" ++ u) = some w :=
  mapLookup_mapSet_self _ _ _

lemma runChecks_length (L : AIRateLimiter) (u : String) (ts : List Int) :
    (runChecks L u ts).1.length = ts.length := by
  induction ts generalizing L with
  | nil => simp [runChecks]
  | cons t ts ih => simp [runChecks, ih]

lemma runChecks_saturate (u : String) (t₀ rt : Int) :
    ∀ (ts : List Int) (L : AIRateLimiter) (c : Nat),
    L.limit = 60 → L.window_minutes = 15 →
    mapLookup L.requests ("ai:" ++ u) = some ⟨c, t₀, rt⟩ →
    c ≤ 60 →
    (∀ t ∈ ts, t ≤ t₀ + 900) →
    ∀ i, i < ts.length →
      ((runChecks L u ts).1.get? i).map CheckResult.allowed = some (decide (c + i < 60)) ∧
      (¬ (c + i < 60) →
        ((runChecks L u ts).1.get? i).map CheckResult.remaining = some 0) := by
  intro ts
  induction ts with
  | nil => intro L c _ _ _ _ _ i hi; simp at hi
  | cons t ts ih =>
      intro L c hlim hwm hlook hc60 hts i hi
      have ht : t ≤ t₀ + (L.window_minutes : Int) * 60 := by
        rw [hwm]
        have h900 : ((15 : Nat) : Int) * 60 = 900 := by norm_num
        rw [h900]
        exact hts t (List.mem_cons_self t ts)
      have hts' : ∀ t' ∈ ts, t' ≤ t₀ + 900 :=
        fun t' h => hts t' (List.mem_cons_of_mem t h)
      by_cases hfull : c ≥ 60
      · have hc : c = 60 := le_antisymm hc60 hfull
        subst hc
        have hstep := check_step_reject hlook ht (by rw [hlim])
        match i with
        | 0 => simp [runChecks, hstep]
        | Nat.succ j =>
            have hj : j < ts.length := Nat.lt_of_succ_lt_succ hi
            have hrec := ih L 60 hlim hwm hlook le_rfl hts' j hj
            have hd1 : decide (60 + (j + 1) < 60) = false := by simp
            have hd2 : decide (60 + j < 60) = false := by simp
            constructor
            · simp only [runChecks, hstep, List.get?_cons_succ, hd1]
              rw [hrec.1, hd2]
            · intro _
              simp only [runChecks, hstep, List.get?_cons_succ]
              exact hrec.2 (by omega)
      · have hc : c < L.limit := by rw [hlim]; exact Nat.lt_of_not_le hfull
        have hstep := check_step_increment hlook ht hc
        match i with
        | 0 =>
            have hd : decide (c < 60) = true := decide_eq_true (by omega)
            constructor
            · simp [runChecks, hstep, hd]
            · intro hge; exact absurd (by omega : c + 0 < 60) hge
        | Nat.succ j =>
            have hj : j < ts.length := Nat.lt_of_succ_lt_succ hi
            have hrec := ih (setWindow L u (RateWindowData.mk (c + 1) t₀ rt)) (c + 1)
              hlim hwm (mapLookup_setWindow L u _) (by omega) hts' j hj
            have hd : decide (c + (j + 1) < 60) = decide (c + 1 + j < 60) :=
              decide_eq_decide.mpr (by omega)
            constructor
            · simp only [runChecks, hstep, List.get?_cons_succ, hd]
              exact hrec.1
            · intro hge
              simp only [runChecks, hstep, List.get?_cons_succ]
              exact hrec.2 (by omega)

/-- C2: starting from a fresh limiter, requests 1..60 of a user within a
single window are all admitted, and request 61 within the same window is
rejected with `remaining = 0`.  Request `i + 1` is the list entry `i`. -/
theorem c2_sixty_allowed_then_rejected (u : String) (t₀ : Int) (ts : List Int)
    (hlen : ts.length = 61) (hhead : ts.head? = some t₀)
    (hwin : ∀ t ∈ ts, t₀ ≤ t ∧ t ≤ t₀ + 900)
    (i : Nat) (hi : i < 61) :
    ((runChecks AIRateLimiter.init u ts).1.get? i).map CheckResult.allowed
      = some (decide (i < 60)) ∧
    (i = 60 →
      ((runChecks AIRateLimiter.init u ts).1.get? i).map CheckResult.remaining
        = some 0) := by
  match ts, hlen with
  | t :: rest, hlen =>
      have ht0 : t = t₀ := by simpa using hhead
      subst ht0
      have hlook0 : mapLookup AIRateLimiter.init.requests ("ai:" ++ u) = none := rfl
      have hstep := check_step_fresh (L := AIRateLimiter.init) t hlook0
      simp only [show AIRateLimiter.init.window_minutes = 15 from rfl,
        show AIRateLimiter.init.limit = 60 from rfl] at hstep
      have hL1lim : (setWindow AIRateLimiter.init u
          (RateWindowData.mk 1 t (t + ((15 : Nat) : Int) * 60))).limit = 60 := rfl
      have hL1wm : (setWindow AIRateLimiter.init u
          (RateWindowData.mk 1 t (t + ((15 : Nat) : Int) * 60))).window_minutes = 15 := rfl
      match i with
      | 0 =>
          constructor
          · simp [runChecks, hstep]
          · intro h; cases h
      | Nat.succ j =>
          have hj : j < rest.length := by
            have : rest.length = 60 := by simpa using hlen
            omega
          have hrec := runChecks_saturate u t (t + ((15 : Nat) : Int) * 60) rest
            (setWindow AIRateLimiter.init u
              (RateWindowData.mk 1 t (t + ((15 : Nat) : Int) * 60)))
            1 hL1lim hL1wm (mapLookup_setWindow _ _ _) (by omega)
            (fun t' ht' => (hwin t' (List.mem_cons_of_mem t ht')).2)
            j hj
          have hd : decide (1 + j < 60) = decide (j + 1 < 60) :=
            decide_eq_decide.mpr (by omega)
          constructor
          · simp only [runChecks, hstep, List.get?_cons_succ]
            rw [hrec.1, hd]
          · intro hij
            have hj59 : j = 59 := by omega
            simp only [runChecks, hstep, List.get?_cons_succ]
            exact hrec.2 (by omega)

/-- C2 witness: 61 requests at time 0 from a fresh limiter; request 61 is
rejected with `remaining = 0`. -/
theorem c2_witness :
    ((runChecks AIRateLimiter.init "u" (List.replicate 61 (0 : Int))).1.get? 60).map
        CheckResult.allowed = some false ∧
    ((runChecks AIRateLimiter.init "u" (List.replicate 61 (0 : Int))).1.get? 60).map
        CheckResult.remaining = some 0 := by
  have h := c2_sixty_allowed_then_rejected "u" 0 (List.replicate 61 (0 : Int))
    (by simp) rfl
    (by
      intro t ht
      have := List.eq_of_mem_replicate ht
      subst this
      exact ⟨le_refl _, by norm_num⟩)
    60 (by norm_num)
  exact ⟨by simpa using h.1, h.2 rfl⟩

lemma check_limit_eq (L : AIRateLimiter) (u : String) (t : Int) :
    (L.check u t).2.limit = L.limit := by
  simp only [AIRateLimiter.check]
  cases h : mapLookup L.requests ("ai:" ++ u) with
  | none => rfl
  | some w =>
      by_cases h1 : t > w.window_start + (L.window_minutes : Int) * 60
      · simp [h1]
      · by_cases h2 : w.count ≥ L.limit
        · simp [h1, h2]
        · simp [h1, h2]

lemma check_reject_frame (L : AIRateLimiter) (u : String) (t : Int)
    (hrej : (L.check u t).1.allowed = false) : (L.check u t).2 = L := by
  simp only [AIRateLimiter.check] at hrej ⊢
  cases h : mapLookup L.requests ("ai:" ++ u) with
  | none =>
      rw [h] at hrej
      simp at hrej
  | some w =>
      rw [h] at hrej
      by_cases h1 : t > w.window_start + (L.window_minutes : Int) * 60
      · simp [h1] at hrej
      · by_cases h2 : w.count ≥ L.limit
        · simp [h1, h2]
        · simp [h1, h2] at hrej

lemma check_requests_bound {L : AIRateLimiter} (u : String) (t : Int)
    (hb : ∀ p ∈ L.requests, p.2.count ≤ L.limit) (hl : 1 ≤ L.limit) :
    ∀ p ∈ (L.check u t).2.requests, p.2.count ≤ L.limit := by
  intro p hp
  simp only [AIRateLimiter.check] at hp
  cases h : mapLookup L.requests ("ai:" ++ u) with
  | none =>
      rw [h] at hp
      simp only at hp
      rcases mem_mapSet hp with hmem | heq
      · exact hb p hmem
      · rw [heq]; exact hl
  | some w =>
      rw [h] at hp
      by_cases h1 : t > w.window_start + (L.window_minutes : Int) * 60
      · simp only [if_pos h1] at hp
        rcases mem_mapSet hp with hmem | heq
        · exact hb p hmem
        · rw [heq]; exact hl
      · by_cases h2 : w.count ≥ L.limit
        · simp only [if_neg h1, if_pos h2] at hp
          exact hb p hp
        · simp only [if_neg h1, if_neg h2] at hp
          rcases mem_mapSet hp with hmem | heq
          · exact hb p hmem
          · rw [heq]
            exact Nat.succ_le_of_lt (Nat.lt_of_not_le h2)

lemma runCalls_limit_eq (calls : List (String × Int)) :
    ∀ L : AIRateLimiter, (runCalls L calls).limit = L.limit := by
  induction calls with
  | nil => intro L; rfl
  | cons c rest ih =>
      intro L
      obtain ⟨u, t⟩ := c
      rw [runCalls, ih, check_limit_eq]

lemma runCalls_bound (calls : List (String × Int)) :
    ∀ L : AIRateLimiter, (∀ p ∈ L.requests, p.2.count ≤ L.limit) → 1 ≤ L.limit →
    ∀ p ∈ (runCalls L calls).requests, p.2.count ≤ L.limit := by
  induction calls with
  | nil => intro L hb _ p hp; exact hb p hp
  | cons c rest ih =>
      intro L hb hl p hp
      obtain ⟨u, t⟩ := c
      rw [runCalls] at hp
      have hlim := check_limit_eq L u t
      have hb' : ∀ q ∈ (L.check u t).2.requests, q.2.count ≤ (L.check u t).2.limit := by
        rw [hlim]; exact check_requests_bound u t hb hl
      have := ih (L.check u t).2 hb' (by rw [hlim]; exact hl) p hp
      rwa [hlim] at this

/-- C10: along any sequence of sequential `check` calls from a fresh
limiter no stored window count ever exceeds the limit of 60, and a
rejected `check` call leaves the limiter state (all windows) unchanged. -/
theorem c10_count_cap_and_reject_frame (calls : List (String × Int))
    (L : AIRateLimiter) (u : String) (t : Int)
    (hrej : (L.check u t).1.allowed = false) :
    (runCalls AIRateLimiter.init calls).requests.all
        (fun p => decide (p.2.count ≤ 60)) = true ∧
    (L.check u t).2 = L := by
  constructor
  · rw [List.all_eq_true]
    intro p hp
    rw [decide_eq_true_eq]
    exact runCalls_bound calls AIRateLimiter.init
      (by intro q hq; simp [AIRateLimiter.init] at hq) (by decide) p hp
  · exact check_reject_frame L u t hrej

/-- C10 witness: two calls from a fresh limiter respect the cap, and a
rejected call on a saturated window leaves the limiter unchanged. -/
theorem c10_witness :
    (runCalls AIRateLimiter.init [("u", 0), ("u", 10)]).requests.all
        (fun p => decide (p.2.count ≤ 60)) = true ∧
    ((AIRateLimiter.mk [("ai:u", ⟨60, 0, 900⟩)] 60 15).check "u" 100).2 =
      AIRateLimiter.mk [("ai:u", ⟨60, 0, 900⟩)] 60 15 :=
  c10_count_cap_and_reject_frame [("u", 0), ("u", 10)]
    (AIRateLimiter.mk [("ai:u", ⟨60, 0, 900⟩)] 60 15) "u" 100 (by decide)

/-- C5: a rate-limited `POST /chat` returns 429 with the Arabic wait-time
message (minutes until reset) and leaves the chat-message table unchanged. -/
theorem c5_rate_limited_rejection (uid message model : String)
    (profile : Option Profile) (db : List ChatRow) (L : AIRateLimiter) (now : Int)
    (apiKeySet : Bool) (net : ApiNetResult) (new_id : String)
    (hrej : (L.check uid now).1.allowed = false) :
    (chat uid message model profile db L now apiKeySet net new_id).status = 429 ∧
    (chat uid message model profile db L now apiKeySet net new_id).success = false ∧
    (chat uid message model profile db L now apiKeySet net new_id).db = db ∧
    (chat uid message model profile db L now apiKeySet net new_id).error =
      some ("لقد تجاوزت الحد المسموح به من الطلبات. يرجى المحاولة بعد " ++
        toString (pyIntDiv (L.check uid now).1.resetAfter 60000) ++ " دقائق.") := by
  simp [chat, hrej]

/-- C5 witness: a saturated window rejects a concrete request untouched. -/
theorem c5_witness :
    (chat "u" "مرحبا" "m" (some (Profile.mk none none none none none))
        [ChatRow.mk "r0" "u" "a" "b" "m" 1 true 0]
        (AIRateLimiter.mk [("ai:u", ⟨60, 0, 900⟩)] 60 15) 100 true
        ApiNetResult.timeout "id1").status = 429 ∧
    (chat "u" "مرحبا" "m" (some (Profile.mk none none none none none))
        [ChatRow.mk "r0" "u" "a" "b" "m" 1 true 0]
        (AIRateLimiter.mk [("ai:u", ⟨60, 0, 900⟩)] 60 15) 100 true
        ApiNetResult.timeout "id1").success = false ∧
    (chat "u" "مرحبا" "m" (some (Profile.mk none none none none none))
        [ChatRow.mk "r0" "u" "a" "b" "m" 1 true 0]
        (AIRateLimiter.mk [("ai:u", ⟨60, 0, 900⟩)] 60 15) 100 true
        ApiNetResult.timeout "id1").db = [ChatRow.mk "r0" "u" "a" "b" "m" 1 true 0] ∧
    (chat "u" "مرحبا" "m" (some (Profile.mk none none none none none))
        [ChatRow.mk "r0" "u" "a" "b" "m" 1 true 0]
        (AIRateLimiter.mk [("ai:u", ⟨60, 0, 900⟩)] 60 15) 100 true
        ApiNetResult.timeout "id1").error =
      some ("لقد تجاوزت الحد المسموح به من الطلبات. يرجى المحاولة بعد " ++
        toString (pyIntDiv ((AIRateLimiter.mk [("ai:u", ⟨60, 0, 900⟩)] 60 15).check
          "u" 100).1.resetAfter 60000) ++ " دقائق.") :=
  c5_rate_limited_rejection "u" "مرحبا" "m"
    (some (Profile.mk none none none none none))
    [ChatRow.mk "r0" "u" "a" "b" "m" 1 true 0]
    (AIRateLimiter.mk [("ai:u", ⟨60, 0, 900⟩)] 60 15) 100 true
    ApiNetResult.timeout "id1" (by decide)

/-- C4: when the completion call fails, `POST /chat` still answers 200 with
`success = true`, the response is the canned fallback chosen by the
emergency flag, and exactly one row with the sanitized prompt and that
fallback is appended to the chat-message table.  The last conjuncts pin
down the flag selection: the emergency-services text is returned iff the
flag is true. -/
theorem c4_fallback_on_api_failure (uid message model : String) (p : Profile)
    (db : List ChatRow) (L : AIRateLimiter) (now : Int) (apiKeySet : Bool)
    (net : ApiNetResult) (new_id : String)
    (hallow : (L.check uid now).1.allowed = true)
    (hsan : sanitize_message message ≠ "")
    (hfail : ∃ e, call_gemini_api apiKeySet net
        (buildMessages p db uid (sanitize_message message)) = Except.error e) :
    (chat uid message model (some p) db L now apiKeySet net new_id).status = 200 ∧
    (chat uid message model (some p) db L now apiKeySet net new_id).success = true ∧
    (chat uid message model (some p) db L now apiKeySet net new_id).data =
      some (ChatData.mk
        (get_fallback_response (sanitize_message message)
          (check_emergency_keywords (sanitize_message message)))
        new_id
        (pyCountWords (sanitize_message message) +
          pyCountWords (get_fallback_response (sanitize_message message)
            (check_emergency_keywords (sanitize_message message))))
        model now (check_emergency_keywords (sanitize_message message))) ∧
    (chat uid message model (some p) db L now apiKeySet net new_id).db =
      db ++ [ChatRow.mk new_id uid (sanitize_message message)
        (get_fallback_response (sanitize_message message)
          (check_emergency_keywords (sanitize_message message)))
        model
        (pyCountWords (sanitize_message message) +
          pyCountWords (get_fallback_response (sanitize_message message)
            (check_emergency_keywords (sanitize_message message))))
        true now] ∧
    get_fallback_response (sanitize_message message) true = emergency_fallback_text ∧
    get_fallback_response (sanitize_message message) false = generic_fallback_text ∧
    emergency_fallback_text ≠ generic_fallback_text := by
  obtain ⟨e, he⟩ := hfail
  refine ⟨?_, ?_, ?_, ?_, rfl, rfl, by decide⟩ <;>
    simp [chat, hallow, hsan, he]

/-- C4 witness: a timed-out upstream call on a concrete request. -/
theorem c4_witness :
    (chat "u1" "مرحبا" "m" (some (Profile.mk none none none none none)) []
        AIRateLimiter.init 100 true ApiNetResult.timeout "id2").status = 200 ∧
    (chat "u1" "مرحبا" "m" (some (Profile.mk none none none none none)) []
        AIRateLimiter.init 100 true ApiNetResult.timeout "id2").success = true ∧
    (chat "u1" "مرحبا" "m" (some (Profile.mk none none none none none)) []
        AIRateLimiter.init 100 true ApiNetResult.timeout "id2").db =
      [ChatRow.mk "id2" "u1" "مرحبا" generic_fallback_text "m"
        (1 + pyCountWords generic_fallback_text) true 100] := by
  have h := c4_fallback_on_api_failure "u1" "مرحبا" "m"
    (Profile.mk none none none none none) [] AIRateLimiter.init 100 true
    ApiNetResult.timeout "id2" (by decide) (by decide) ⟨_, rfl⟩
  refine ⟨h.1, h.2.1, ?_⟩
  have hdb := h.2.2.2.1
  rw [hdb]
  have hem : check_emergency_keywords (sanitize_message "مرحبا") = false := by decide
  have hs : sanitize_message "مرحبا" = "مرحبا" := by decide
  have hw : pyCountWords (sanitize_message "مرحبا") = 1 := by decide
  rw [hem, hs] at *
  simp [get_fallback_response, hw]

lemma containsCL_eq_true_iff (sub : List Char) (l : List Char) :
    containsCL sub l = true ↔ List.IsInfix sub l := by
  induction l with
  | nil =>
      simp only [containsCL, List.isPrefixOf_iff_prefix]
      constructor
      · intro h
        exact h.isInfix
      · intro h
        exact (List.eq_nil_of_infix_nil h) ▸ List.nil_prefix
  | cons c rest ih =>
      simp only [containsCL, Bool.or_eq_true, List.isPrefixOf_iff_prefix, ih]
      rw [List.infix_cons_iff]

/-- C6: `check_emergency_keywords` is substring matching against the fixed
keyword list on the lowercased message — true iff some configured keyword
occurs in it — and the chat response reports exactly this value as
`is_emergency`. -/
theorem c6_emergency_keyword_detection (m : String) (uid message model : String)
    (p : Profile) (db : List ChatRow) (L : AIRateLimiter) (now : Int)
    (apiKeySet : Bool) (net : ApiNetResult) (new_id : String)
    (hallow : (L.check uid now).1.allowed = true)
    (hsan : sanitize_message message ≠ "") :
    (check_emergency_keywords m = true ↔
      ∃ k ∈ emergency_keywords, List.IsInfix k.data (pyLower m).data) ∧
    (chat uid message model (some p) db L now apiKeySet net new_id).data.map
      ChatData.is_emergency = some (check_emergency_keywords (sanitize_message message)) := by
  constructor
  · simp only [check_emergency_keywords, List.any_eq_true, strContains,
      containsCL_eq_true_iff]
  · cases hapi : call_gemini_api apiKeySet net
        (buildMessages p db uid (sanitize_message message)) with
    | error e => simp [chat, hallow, hsan, hapi]
    | ok r => simp [chat, hallow, hsan, hapi]

/-- C6 witness: a message containing the keyword `نزيف` is flagged, and a
concrete chat response carries the flag. -/
theorem c6_witness :
    check_emergency_keywords "لدي نزيف حاد" = true ∧
    (chat "u1" "لدي نزيف حاد" "m" (some (Profile.mk none none none none none)) []
        AIRateLimiter.init 50 true ApiNetResult.timeout "id3").data.map
      ChatData.is_emergency = some true := by
  have h := c6_emergency_keyword_detection "لدي نزيف حاد" "u1" "لدي نزيف حاد" "m"
    (Profile.mk none none none none none) [] AIRateLimiter.init 50 true
    ApiNetResult.timeout "id3" (by decide) (by decide)
  constructor
  · exact h.1.mpr ⟨"نزيف", by decide, by decide⟩
  · rw [h.2]
    have : check_emergency_keywords (sanitize_message "لدي نزيف حاد") = true := by decide
    rw [this]

/-- Four stored turns of one user: rows are full prompt/response pairs. -/
def fourTurnHistory : List ChatRow :=
  [ChatRow.mk "m1" "u1" "س1" "ج1" "gemini-2.5-flash" 3 true 1,
   ChatRow.mk "m2" "u1" "س2" "ج2" "gemini-2.5-flash" 3 true 2,
   ChatRow.mk "m3" "u1" "س3" "ج3" "gemini-2.5-flash" 3 true 3,
   ChatRow.mk "m4" "u1" "س4" "ج4" "gemini-2.5-flash" 3 true 4]

/-- C1 (failing evaluation): with only 4 stored rows the assembled prompt
has one system message first, then 8 history messages (4 user/assistant
pairs, chronological), then the new user message — more than the claimed
bound of 6 history messages (3 pairs), because the query's `LIMIT 6`
limits rows and every row expands into two messages. -/
theorem c1_history_exceeds_three_pairs :
    (buildMessages (Profile.mk none none none none none) fourTurnHistory "u1"
        "مرحبا").map Msg.role =
      ["system", "user", "assistant", "user", "assistant", "user", "assistant",
       "user", "assistant", "user"] ∧
    ¬ ((buildMessages (Profile.mk none none none none none) fourTurnHistory "u1"
        "مرحبا").length ≤ 1 + 6 + 1) := by
  decide

/-- C7 (counterexample): a successful response carrying a provider usage
report of 999 total tokens still yields the word-count approximation
(here 3), so the reported count does not come from the usage report. -/
theorem c7_usage_report_ignored :
    call_gemini_api true
        (ApiNetResult.response 200 (some (GeminiBody.mk ["ok ok"] (some 999))))
        [Msg.mk "user" "hi"] =
      Except.ok (GeminiSuccess.mk "ok ok" 3 1 2) ∧
    (GeminiSuccess.mk "ok ok" 3 1 2).total_tokens ≠ 999 :=
  ⟨rfl, by decide⟩

/-- C7 (amended): on every successful completion the reported token count
is the whitespace word-count approximation — prompt words plus completion
words — regardless of any provider usage report in the response body. -/
theorem c7_tokens_always_word_count (apiKeySet : Bool) (status : Nat)
    (b : GeminiBody) (messages : List Msg) (c : String) (cs : List String)
    (hkey : apiKeySet = true) (hstatus : status = 200)
    (hcand : b.candidates = c :: cs) :
    call_gemini_api apiKeySet (ApiNetResult.response status (some b)) messages =
      Except.ok (GeminiSuccess.mk c
        ((messages.map (fun m => pyCountWords m.content)).sum + pyCountWords c)
        ((messages.map (fun m => pyCountWords m.content)).sum)
        (pyCountWords c)) := by
  subst hkey hstatus
  simp [call_gemini_api, hcand]

/-- C7 witness: the amended statement evaluated on a concrete response
that does carry a usage report. -/
theorem c7_witness :
    call_gemini_api true
        (ApiNetResult.response 200 (some (GeminiBody.mk ["جواب قصير"] (some 999))))
        [Msg.mk "user" "سؤال"] =
      Except.ok (GeminiSuccess.mk "جواب قصير"
        (([Msg.mk "user" "سؤال"].map (fun m => pyCountWords m.content)).sum +
          pyCountWords "جواب قصير")
        (([Msg.mk "user" "سؤال"].map (fun m => pyCountWords m.content)).sum)
        (pyCountWords "جواب قصير")) :=
  c7_tokens_always_word_count true 200 (GeminiBody.mk ["جواب قصير"] (some 999))
    [Msg.mk "user" "سؤال"] "جواب قصير" [] rfl rfl rfl

/-- C8: clearing history with a valid `older_than_days = d` (schema range
starts at 1) succeeds, deletes exactly the caller's rows older than
`now - d` days, reports that number, and — when the caller has no such
old rows — reports 0 and leaves the table untouched. -/
theorem c8_clear_history_frame (uid : String) (d : Nat) (hd : 1 ≤ d) (now : Int)
    (db : List ChatRow) :
    (clear_history uid true (some d) now db).status = 200 ∧
    (clear_history uid true (some d) now db).success = true ∧
    (clear_history uid true (some d) now db).deleted_count =
      some ((db.filter (fun r => decide (r.user_id = uid) &&
        decide (r.created_at < now - (d : Int) * 86400))).length) ∧
    (clear_history uid true (some d) now db).db =
      db.filter (fun r => !(decide (r.user_id = uid) &&
        decide (r.created_at < now - (d : Int) * 86400))) ∧
    ((∀ r ∈ db, r.user_id = uid → ¬ (r.created_at < now - (d : Int) * 86400)) →
      (clear_history uid true (some d) now db).deleted_count = some 0 ∧
      (clear_history uid true (some d) now db).db = db) := by
  have hdel : clearDeletes uid (some d) now = fun r =>
      decide (r.user_id = uid) && decide (r.created_at < now - (d : Int) * 86400) := by
    funext r
    simp [clearDeletes, Nat.one_le_iff_ne_zero.mp hd]
  refine ⟨rfl, rfl, by simp [clear_history, hdel], ?_, ?_⟩
  · simp only [clear_history, if_neg (by simp : ¬ (true = false)), hdel]
    congr 1
    funext r
    cases hab : (decide (r.user_id = uid) &&
        decide (r.created_at < now - (d : Int) * 86400)) <;> simp [hab]
  · intro hnone
    have hfilt : db.filter (clearDeletes uid (some d) now) = [] := by
      rw [List.filter_eq_nil_iff]
      intro r hr
      rw [hdel]
      simp only [Bool.and_eq_true, decide_eq_true_eq, not_and]
      intro hu
      exact fun hlt => hnone r hr hu hlt
    constructor
    · simp [clear_history, hfilt]
    · simp only [clear_history, if_neg (by simp : ¬ (true = false))]
      rw [List.filter_eq_self]
      intro r hr
      have : clearDeletes uid (some d) now r = false := by
        by_contra hne
        have : clearDeletes uid (some d) now r = true := by
          revert hne; cases clearDeletes uid (some d) now r <;> simp
        have hmem : r ∈ db.filter (clearDeletes uid (some d) now) :=
          List.mem_filter.mpr ⟨hr, this⟩
        rw [hfilt] at hmem
        exact absurd hmem (List.not_mem_nil r)
      simp [this]

/-- C8 witness: of three rows (the caller's old row, the caller's fresh
row, another user's old row) only the caller's old row is deleted; a
second call on a table with no old rows deletes nothing. -/
theorem c8_witness :
    (clear_history "u1" true (some 30) (40 * 86400)
        [ChatRow.mk "a" "u1" "q1" "r1" "m" 1 true 0,
         ChatRow.mk "b" "u1" "q2" "r2" "m" 1 true (39 * 86400),
         ChatRow.mk "c" "u2" "q3" "r3" "m" 1 true 0]).deleted_count = some 1 ∧
    (clear_history "u1" true (some 30) (40 * 86400)
        [ChatRow.mk "a" "u1" "q1" "r1" "m" 1 true 0,
         ChatRow.mk "b" "u1" "q2" "r2" "m" 1 true (39 * 86400),
         ChatRow.mk "c" "u2" "q3" "r3" "m" 1 true 0]).db =
      [ChatRow.mk "b" "u1" "q2" "r2" "m" 1 true (39 * 86400),
       ChatRow.mk "c" "u2" "q3" "r3" "m" 1 true 0] ∧
    (clear_history "u1" true (some 30) (40 * 86400)
        [ChatRow.mk "b" "u1" "q2" "r2" "m" 1 true (39 * 86400)]).deleted_count =
      some 0 ∧
    (clear_history "u1" true (some 30) (40 * 86400)
        [ChatRow.mk "b" "u1" "q2" "r2" "m" 1 true (39 * 86400)]).db =
      [ChatRow.mk "b" "u1" "q2" "r2" "m" 1 true (39 * 86400)] := by
  have h1 := c8_clear_history_frame "u1" 30 (by decide) (40 * 86400)
    [ChatRow.mk "a" "u1" "q1" "r1" "m" 1 true 0,
     ChatRow.mk "b" "u1" "q2" "r2" "m" 1 true (39 * 86400),
     ChatRow.mk "c" "u2" "q3" "r3" "m" 1 true 0]
  have h2 := c8_clear_history_frame "u1" 30 (by decide) (40 * 86400)
    [ChatRow.mk "b" "u1" "q2" "r2" "m" 1 true (39 * 86400)]
  have h2' := h2.2.2.2.2 (by
    intro r hr hu
    simp only [List.mem_singleton] at hr
    subst hr
    decide)
  refine ⟨?_, ?_, h2'.1, h2'.2⟩
  · rw [h1.2.2.1]; decide
  · rw [h1.2.2.2.1]; decide
